import Mathlib

/- Verification development for the Playdate realtime session coordination layer.
   The definitions below are a shallow embedding of the server handlers in
   apps/server/src (room.ts, game.ts, rate-limit.ts) and of the client ICE
   buffering logic in apps/web/src/hooks/useWebRTC.ts. Timestamps are Nat
   milliseconds; JavaScript Date values become Nat, maps become functions
   from String to Option, and side effects (acknowledgment callbacks, socket
   emits, setTimeout timers) become explicit output fields. -/

namespace Playdate

/- Constants from packages/shared/src/types/room.ts, RATE_LIMIT_CONFIG. -/

def MAX_ATTEMPTS : Nat := 5

def LOCKOUT_DURATION_MS : Nat := 15 * 60 * 1000

def ATTEMPT_WINDOW_MS : Nat := 5 * 60 * 1000

/- Rate-limit guard state, from apps/server/src/utils/rate-limit.ts.
   RateLimitState mirrors the shared interface: attempts, lockedUntil
   (nullable absolute deadline), lastAttemptAt. -/

structure RateLimitState where
  attempts : Nat
  lockedUntil : Option Nat
  lastAttemptAt : Nat
deriving DecidableEq, Repr

/-- Store keyed by room id, mirroring the in-memory Map in rate-limit.ts. -/
def RateLimitStore : Type := String → Option RateLimitState

def setRecord (store : RateLimitStore) (roomId : String) (v : Option RateLimitState) :
    RateLimitStore :=
  fun k => if k = roomId then v else store k

structure RateLimitedResult where
  limited : Bool
  lockoutRemaining : Option Nat
deriving DecidableEq, Repr

/-- Embedding of isRateLimited from rate-limit.ts. Returns the result together
with the possibly mutated store: an expired lockout is cleared in place
(attempts reset to 0, lockedUntil cleared). The JS comparison
lockedUntil > new Date() becomes now < lu. -/
def isRateLimited (store : RateLimitStore) (roomId : String) (now : Nat) :
    RateLimitedResult × RateLimitStore :=
  match store roomId with
  | none => (⟨false, none⟩, store)
  | some st =>
    match st.lockedUntil with
    | some lu =>
      if now < lu then
        (⟨true, some (lu - now)⟩, store)
      else
        (⟨false, none⟩, setRecord store roomId (some { st with lockedUntil := none, attempts := 0 }))
    | none => (⟨false, none⟩, store)

structure RecordResult where
  locked : Bool
  attemptsRemaining : Nat
deriving DecidableEq, Repr

/-- Embedding of recordFailedAttempt from rate-limit.ts. A missing record is
created with attempts 0 and lastAttemptAt now; if the sliding window since the
last attempt has elapsed (strictly more than ATTEMPT_WINDOW_MS) the counter is
reset first; then the counter increments, and reaching MAX_ATTEMPTS sets a
lockout deadline of now + LOCKOUT_DURATION_MS. Nat subtraction matches the JS
Date difference for the monotone clocks used here. -/
def recordFailedAttempt (store : RateLimitStore) (roomId : String) (now : Nat) :
    RecordResult × RateLimitStore :=
  let st0 := (store roomId).getD { attempts := 0, lockedUntil := none, lastAttemptAt := now }
  let windowExpired := ATTEMPT_WINDOW_MS < now - st0.lastAttemptAt
  let st1 := if windowExpired then { st0 with attempts := 0, lockedUntil := none } else st0
  let st2 := { st1 with attempts := st1.attempts + 1, lastAttemptAt := now }
  if MAX_ATTEMPTS ≤ st2.attempts then
    (⟨true, 0⟩, setRecord store roomId
      (some { st2 with lockedUntil := some (now + LOCKOUT_DURATION_MS) }))
  else
    (⟨false, MAX_ATTEMPTS - st2.attempts⟩, setRecord store roomId (some st2))

/-- Embedding of resetAttempts from rate-limit.ts: called after a successful
authentication; clears the counter and any lockout of an existing record. -/
def resetAttempts (store : RateLimitStore) (roomId : String) : RateLimitStore :=
  match store roomId with
  | none => store
  | some st => setRecord store roomId (some { st with attempts := 0, lockedUntil := none })

/- Room model, from apps/server/src/socket/handlers/room.ts. -/

inductive RoomStatus where
  | opened
  | closed
deriving DecidableEq, Repr

inductive PlayerRole where
  | host
  | peer
deriving DecidableEq, Repr

/-- Embedding of the InMemoryRoom record in room.ts. The status value opened
stands for the string open. The opaque gameState field of room.ts is unused by
every handler modelled here except as storage and is omitted. -/
structure InMemoryRoom where
  roomId : String
  passwordHash : String
  status : RoomStatus
  hostSocketId : Option String
  hostDisplayName : Option String
  peerSocketId : Option String
  peerDisplayName : Option String
  currentGameKey : Option String
  serverSeq : Nat
  createdAt : Nat
deriving DecidableEq, Repr

def RoomStore : Type := String → Option InMemoryRoom

def setRoom (rooms : RoomStore) (roomId : String) (v : Option InMemoryRoom) : RoomStore :=
  fun k => if k = roomId then v else rooms k

/-- Process-wide server state relevant to the room handlers: the rooms map and
the rate-limit store. -/
structure ServerState where
  rooms : RoomStore
  rateLimits : RateLimitStore

/-- Error codes from the shared ErrorCodes constants that the room and game
handlers return. -/
inductive ErrorCode where
  | validationError
  | internalError
  | roomLocked
  | roomNotFound
  | roomClosed
  | roomPasswordInvalid
  | roomFull
  | forbidden
  | gameNotStarted
  | gameNotFound
  | gameInvalidAction
deriving DecidableEq, Repr

/-- The value passed to the ROOM_JOIN acknowledgment callback, one constructor
per return site of the handler. -/
inductive JoinResult where
  | rateLimited (lockoutRemaining : Nat)
  | notFound
  | roomClosed
  | lockedAfterFailure
  | invalidPassword (attemptsRemaining : Nat)
  | full
  | joined (role : PlayerRole) (peerDisplayName : String)
  | waiting (role : PlayerRole)
deriving DecidableEq, Repr

/-- The error code each rejecting JoinResult carries in the code. -/
def JoinResult.errCode : JoinResult → Option ErrorCode
  | .rateLimited _ => some .roomLocked
  | .notFound => some .roomNotFound
  | .roomClosed => some .roomClosed
  | .lockedAfterFailure => some .roomLocked
  | .invalidPassword _ => some .roomPasswordInvalid
  | .full => some .roomFull
  | .joined _ _ => none
  | .waiting _ => none

/-- Events emitted by the room handlers to individual sockets or to the
broadcast group. -/
inductive RoomEmit where
  | roomReady (target roomId peerDisplayName : String)
  | peerDisconnected (target roomId displayName : String)
  | roomClosedEvt (target roomId : String)
  | socketsLeave (roomId : String)
deriving DecidableEq, Repr

structure JoinOutcome where
  result : JoinResult
  state : ServerState
  emits : List RoomEmit

/-- The tail of the ROOM_JOIN handler after the vacant slot was assigned:
if both slots are now occupied, return joined and notify the other occupant
with ROOM_READY; otherwise return waiting. -/
def finishJoin (st : ServerState) (roomId : String) (room' : InMemoryRoom)
    (role : PlayerRole) (displayName : String) : JoinOutcome :=
  let st' : ServerState := { st with rooms := setRoom st.rooms roomId (some room') }
  if room'.hostSocketId.isSome && room'.peerSocketId.isSome then
    let otherName := match role with
      | .host => room'.peerDisplayName.getD ""
      | .peer => room'.hostDisplayName.getD ""
    let otherSocket := match role with
      | .host => room'.peerSocketId
      | .peer => room'.hostSocketId
    { result := .joined role otherName
      state := st'
      emits := match otherSocket with
        | some sid => [RoomEmit.roomReady sid roomId displayName]
        | none => [] }
  else
    { result := .waiting role, state := st', emits := [] }

/-- Embedding of the ROOM_JOIN handler (room.ts lines 174 to 316), with the
argon2 verification abstracted into the verify parameter. The branch order is
that of the source: rate limit, existence, closed status, password, full
check, slot assignment. -/
def joinRoom (verify : String → String → Bool) (st0 : ServerState)
    (socketId roomId password displayName : String) (now : Nat) : JoinOutcome :=
  let rl := isRateLimited st0.rateLimits roomId now
  let st1 : ServerState := { st0 with rateLimits := rl.2 }
  if rl.1.limited then
    { result := .rateLimited (rl.1.lockoutRemaining.getD 0), state := st1, emits := [] }
  else
    match st1.rooms roomId with
    | none =>
      let rf := recordFailedAttempt st1.rateLimits roomId now
      { result := .notFound, state := { st1 with rateLimits := rf.2 }, emits := [] }
    | some room =>
      if room.status = RoomStatus.closed then
        { result := .roomClosed, state := st1, emits := [] }
      else if verify room.passwordHash password = false then
        let rf := recordFailedAttempt st1.rateLimits roomId now
        if rf.1.locked then
          { result := .lockedAfterFailure, state := { st1 with rateLimits := rf.2 }, emits := [] }
        else
          { result := .invalidPassword rf.1.attemptsRemaining
            state := { st1 with rateLimits := rf.2 }, emits := [] }
      else
        let st2 : ServerState := { st1 with rateLimits := resetAttempts st1.rateLimits roomId }
        if room.peerSocketId.isSome && room.hostSocketId.isSome then
          { result := .full, state := st2, emits := [] }
        else if room.hostSocketId.isNone then
          finishJoin st2 roomId
            { room with hostSocketId := some socketId, hostDisplayName := some displayName }
            .host displayName
        else if room.peerSocketId.isNone then
          finishJoin st2 roomId
            { room with peerSocketId := some socketId, peerDisplayName := some displayName }
            .peer displayName
        else
          { result := .full, state := st2, emits := [] }

structure LeaveOutcome where
  state : ServerState
  emits : List RoomEmit
  timers : List String

/-- Shared slot-clearing step of ROOM_LEAVE and handleRoomDisconnect: clears
the slot the departing socket occupied and notifies the remaining occupant if
any. Returns the updated room together with the emits. -/
def clearCallerSlot (room : InMemoryRoom) (socketId roomId displayName : String) :
    InMemoryRoom × List RoomEmit :=
  if room.hostSocketId = some socketId then
    ({ room with hostSocketId := none, hostDisplayName := none },
     match room.peerSocketId with
     | some p => [RoomEmit.peerDisconnected p roomId displayName]
     | none => [])
  else if room.peerSocketId = some socketId then
    ({ room with peerSocketId := none, peerDisplayName := none },
     match room.hostSocketId with
     | some h => [RoomEmit.peerDisconnected h roomId displayName]
     | none => [])
  else
    (room, [])

/-- Embedding of the ROOM_LEAVE handler (room.ts lines 319 to 368): after the
slot is cleared, a room whose two slots are now both vacant is deleted
IMMEDIATELY; no timer is scheduled. -/
def leaveRoom (st : ServerState) (socketId roomId displayName : String) : LeaveOutcome :=
  match st.rooms roomId with
  | none => { state := st, emits := [], timers := [] }
  | some room =>
    let cleared := clearCallerSlot room socketId roomId displayName
    if cleared.1.hostSocketId.isNone && cleared.1.peerSocketId.isNone then
      { state := { st with rooms := setRoom st.rooms roomId none }
        emits := cleared.2, timers := [] }
    else
      { state := { st with rooms := setRoom st.rooms roomId (some cleared.1) }
        emits := cleared.2, timers := [] }

/-- Embedding of handleRoomDisconnect (room.ts lines 407 to 448): the slot is
cleared but the room is kept; if both slots are now vacant a delayed cleanup
timer (setTimeout, 60000 ms) is scheduled for the room id. -/
def handleRoomDisconnect (st : ServerState) (socketId : String) (dataRoomId : Option String)
    (displayName : String) : LeaveOutcome :=
  match dataRoomId with
  | none => { state := st, emits := [], timers := [] }
  | some roomId =>
    match st.rooms roomId with
    | none => { state := st, emits := [], timers := [] }
    | some room =>
      let cleared := clearCallerSlot room socketId roomId displayName
      let st' : ServerState := { st with rooms := setRoom st.rooms roomId (some cleared.1) }
      if cleared.1.hostSocketId.isNone && cleared.1.peerSocketId.isNone then
        { state := st', emits := cleared.2, timers := [roomId] }
      else
        { state := st', emits := cleared.2, timers := [] }

/-- Embedding of the setTimeout callback scheduled by handleRoomDisconnect:
when it fires, the room is deleted only if it still exists and both slots are
still vacant; a refilled slot cancels the deletion. -/
def fireRoomCleanup (st : ServerState) (roomId : String) : ServerState :=
  match st.rooms roomId with
  | none => st
  | some room =>
    if room.hostSocketId.isNone && room.peerSocketId.isNone then
      { st with rooms := setRoom st.rooms roomId none }
    else
      st

structure CloseOutcome where
  state : ServerState
  emits : List RoomEmit

/-- Embedding of the ROOM_CLOSE handler (room.ts lines 371 to 403): a missing
room or a caller who is not the host slot occupant is a no-op; otherwise the
room is marked closed, the peer is notified with ROOM_CLOSED, every connection
leaves the broadcast group, and the room is deleted immediately. -/
def closeRoom (st : ServerState) (socketId roomId : String) : CloseOutcome :=
  match st.rooms roomId with
  | none => { state := st, emits := [] }
  | some room =>
    if room.hostSocketId ≠ some socketId then
      { state := st, emits := [] }
    else
      { state := { st with rooms := setRoom st.rooms roomId none }
        emits :=
          (match room.peerSocketId with
           | some p => [RoomEmit.roomClosedEvt p roomId]
           | none => []) ++ [RoomEmit.socketsLeave roomId] }

/- Game capability contract and session engine, from packages/game-core and
   apps/server/src/socket/handlers/game.ts. -/

structure ValidationResult where
  valid : Bool
  error : Option String
deriving DecidableEq, Repr

inductive Winner where
  | host
  | peer
  | draw
deriving DecidableEq, Repr

structure WinResult where
  winner : Winner
deriving DecidableEq, Repr

/-- The pluggable Game capability contract, parametric in the state and action
types the engine treats as opaque. The view functions (getView) are not used
by any handler modelled here and are omitted. -/
structure Game (S A : Type) where
  init : S
  validateAction : S → PlayerRole → A → ValidationResult
  applyAction : S → PlayerRole → A → S
  checkWinCondition : S → Option WinResult

/-- Embedding of the per-room RoomGameState record of game.ts. -/
structure RoomGameState (S : Type) where
  gameKey : String
  state : S
  serverSeq : Nat
  hostReady : Bool
  peerReady : Bool
deriving DecidableEq, Repr

def GameSessions (S : Type) : Type := String → Option (RoomGameState S)

def setSession {S : Type} (sessions : GameSessions S) (roomId : String)
    (v : Option (RoomGameState S)) : GameSessions S :=
  fun k => if k = roomId then v else sessions k

/-- isGameRegistered from the game registry: a key is registered exactly when
the registry lookup succeeds. -/
def isGameRegistered {S A : Type} (getGame : String → Option (Game S A)) (k : String) : Bool :=
  (getGame k).isSome

/-- Events emitted by the game handlers: errors go to the calling socket only,
start, state and ended events are broadcast to the room group. -/
inductive GameEmit (S : Type) where
  | errorToCaller (roomId gameKey : String) (code : ErrorCode) (message : String)
  | startToRoom (roomId gameKey : String) (state : S)
  | stateToRoom (roomId gameKey : String) (state : S) (serverSeq : Nat)
  | endedToRoom (roomId gameKey : String) (winner : Winner) (finalState : S)
deriving DecidableEq, Repr

structure StartOutcome (S : Type) where
  sessions : GameSessions S
  rooms : RoomStore
  emits : List (GameEmit S)

/-- Embedding of startGame (game.ts lines 273 to 309): resolves the game,
initializes state via its init, installs a fresh session with serverSeq 1 and
both ready flags set, records the current game key on the room, and broadcasts
GAME_START. An unknown key is a no-op apart from logging. -/
def startGame {S A : Type} (getGame : String → Option (Game S A)) (sessions : GameSessions S)
    (rooms : RoomStore) (roomId gameKey : String) : StartOutcome S :=
  match getGame gameKey with
  | none => ⟨sessions, rooms, []⟩
  | some g =>
    let sessions' := setSession sessions roomId (some ⟨gameKey, g.init, 1, true, true⟩)
    let rooms' := match rooms roomId with
      | some room => setRoom rooms roomId (some { room with currentGameKey := some gameKey })
      | none => rooms
    ⟨sessions', rooms', [GameEmit.startToRoom roomId gameKey g.init]⟩

/-- Embedding of the GAME_SELECT handler (game.ts lines 38 to 93). A caller
whose socket data names another room, or a missing room, is a no-op. An
unregistered key produces a GAME_ERROR emit to the caller. A host caller
starts the game immediately; any other caller only marks peerReady on an
existing session for the same key and the game starts only when hostReady
already holds. -/
def gameSelect {S A : Type} (getGame : String → Option (Game S A)) (sessions : GameSessions S)
    (rooms : RoomStore) (callerRoomId : Option String) (callerRole : Option PlayerRole)
    (roomId gameKey : String) : StartOutcome S :=
  if callerRoomId ≠ some roomId then ⟨sessions, rooms, []⟩
  else match rooms roomId with
  | none => ⟨sessions, rooms, []⟩
  | some _ =>
    if isGameRegistered getGame gameKey = false then
      ⟨sessions, rooms, [GameEmit.errorToCaller roomId gameKey .gameNotFound "Game not found"]⟩
    else if callerRole ≠ some PlayerRole.host then
      match sessions roomId with
      | some gs =>
        if gs.gameKey = gameKey then
          let gs' := { gs with peerReady := true }
          let sessions' := setSession sessions roomId (some gs')
          if gs'.hostReady && gs'.peerReady then
            startGame getGame sessions' rooms roomId gameKey
          else
            ⟨sessions', rooms, []⟩
        else
          ⟨sessions, rooms, []⟩
      | none => ⟨sessions, rooms, []⟩
    else
      match getGame gameKey with
      | none =>
        ⟨sessions, rooms,
         [GameEmit.errorToCaller roomId gameKey .gameNotFound "Game implementation not found"]⟩
      | some _ => startGame getGame sessions rooms roomId gameKey

/-- The value the GAME_ACTION acknowledgment callback receives. -/
inductive GameAck (S : Type) where
  | err (roomId gameKey : String) (code : ErrorCode) (message : String)
  | ok (roomId gameKey : String) (state : S) (serverSeq : Nat)
deriving DecidableEq, Repr

structure ActionOutcome (S : Type) where
  sessions : GameSessions S
  ack : GameAck S
  emits : List (GameEmit S)

/-- Embedding of the GAME_ACTION handler (game.ts lines 143 to 236). All
rejections produce only an acknowledgment error; an accepted action replaces
the state with the applyAction result, increments serverSeq by one, broadcasts
the new state, acknowledges it, and broadcasts GAME_ENDED when
checkWinCondition produces an outcome. -/
def gameAction {S A : Type} (getGame : String → Option (Game S A)) (sessions : GameSessions S)
    (callerRoomId : Option String) (callerRole : PlayerRole)
    (roomId gameKey : String) (action : A) : ActionOutcome S :=
  if callerRoomId ≠ some roomId then
    ⟨sessions, .err roomId gameKey .forbidden "Not in this room", []⟩
  else match sessions roomId with
  | none => ⟨sessions, .err roomId gameKey .gameNotStarted "Game not started", []⟩
  | some gs =>
    if gs.gameKey ≠ gameKey then
      ⟨sessions, .err roomId gameKey .gameNotStarted "Game not started", []⟩
    else match getGame gameKey with
    | none => ⟨sessions, .err roomId gameKey .gameNotFound "Game not found", []⟩
    | some g =>
      let v := g.validateAction gs.state callerRole action
      if v.valid = false then
        ⟨sessions, .err roomId gameKey .gameInvalidAction (v.error.getD "Invalid action"), []⟩
      else
        let newState := g.applyAction gs.state callerRole action
        let gs' := { gs with state := newState, serverSeq := gs.serverSeq + 1 }
        let emits := [GameEmit.stateToRoom roomId gameKey newState (gs.serverSeq + 1)] ++
          (match g.checkWinCondition newState with
           | some w => [GameEmit.endedToRoom roomId gameKey w.winner newState]
           | none => [])
        ⟨setSession sessions roomId (some gs'), .ok roomId gameKey newState (gs.serverSeq + 1),
         emits⟩

/-- A registry equal to getGame except that the applyAction of the game at
key is replaced by f. Used to express that a rejected action never consults
applyAction. -/
def overrideApply {S A : Type} (getGame : String → Option (Game S A)) (key : String)
    (f : S → PlayerRole → A → S) : String → Option (Game S A) :=
  fun k => if k = key then (getGame k).map (fun g => { g with applyAction := f }) else getGame k

/- Client ICE handling, from apps/web/src/hooks/useWebRTC.ts. -/

/-- Abstraction of one endpoint of the negotiation as the hook sees it: the
peer connection existence flag, whether a remote description has been applied,
the signaling stability flag, the host flag, the list of candidates passed to
addIceCandidate so far, and the pending buffer. -/
structure RTCEndpoint (C : Type) where
  hasPc : Bool
  remoteDescSet : Bool
  signalingStable : Bool
  isHost : Bool
  applied : List C
  pending : List C
deriving DecidableEq, Repr

/-- Embedding of handleIceCandidate (useWebRTC.ts lines 405 to 429): with no
peer connection, or with a peer connection whose remote description is not yet
set, the candidate is appended to the pending buffer; otherwise it is added
immediately. -/
def handleIceCandidate {C : Type} (e : RTCEndpoint C) (c : C) : RTCEndpoint C :=
  if e.hasPc = false then { e with pending := e.pending ++ [c] }
  else if e.remoteDescSet then { e with applied := e.applied ++ [c] }
  else { e with pending := e.pending ++ [c] }

/-- The pending-candidate flush shared by handleOffer and handleAnswer: after
setRemoteDescription succeeds, every buffered candidate is added in order and
the buffer is emptied. -/
def applyRemoteDescription {C : Type} (e : RTCEndpoint C) : RTCEndpoint C :=
  { e with remoteDescSet := true, applied := e.applied ++ e.pending, pending := [],
           signalingStable := true }

/-- Embedding of handleOffer (useWebRTC.ts lines 322 to 372): no peer
connection is a no-op; a host endpoint in a non-stable signaling state ignores
the offer; otherwise the remote description is applied, the pending buffer is
drained, and an answer is sent (the returned Bool). -/
def handleOffer {C : Type} (e : RTCEndpoint C) : RTCEndpoint C × Bool :=
  if e.hasPc = false then (e, false)
  else if !e.signalingStable && e.isHost then (e, false)
  else (applyRemoteDescription e, true)

/-- Embedding of handleAnswer (useWebRTC.ts lines 375 to 402): no peer
connection is a no-op; otherwise the remote description is applied and the
pending buffer is drained. -/
def handleAnswer {C : Type} (e : RTCEndpoint C) : RTCEndpoint C :=
  if e.hasPc = false then e
  else applyRemoteDescription e

/-- Concrete endpoint used to witness C9. -/
def c9Endpoint : RTCEndpoint Nat :=
  { hasPc := true, remoteDescSet := false, signalingStable := true, isHost := false,
    applied := [3], pending := [7] }

/-- Concrete room and state used to witness C6. -/
def c6Room : InMemoryRoom :=
  { roomId := "R6", passwordHash := "pw", status := RoomStatus.opened,
    hostSocketId := some "h6", hostDisplayName := some "H",
    peerSocketId := some "p6", peerDisplayName := some "P",
    currentGameKey := none, serverSeq := 0, createdAt := 0 }

def c6State : ServerState :=
  { rooms := setRoom (fun _ => none) "R6" (some c6Room), rateLimits := fun _ => none }

/-- Concrete game over Nat state and Nat actions used for witnesses: an action
of value at most 5 is legal and is added to the state; reaching 10 wins. -/
def cGame : Game Nat Nat :=
  { init := 0
    validateAction := fun _ _ a => if a ≤ 5 then ⟨true, none⟩ else ⟨false, some "Too big"⟩
    applyAction := fun s _ a => s + a
    checkWinCondition := fun s => if 10 ≤ s then some ⟨Winner.host⟩ else none }

def cGames : String → Option (Game Nat Nat) :=
  fun k => if k = "g" then some cGame else none

def cSession : RoomGameState Nat :=
  { gameKey := "g", state := 3, serverSeq := 2, hostReady := true, peerReady := true }

def cSessions : GameSessions Nat :=
  fun k => if k = "R" then some cSession else none

/-- Concrete room store used by the C7 witness. -/
def c7Rooms : RoomStore := setRoom (fun _ => none) "R" (some c6Room)

/-- Sessions map with a matching session whose host is not ready, used by the
C7 witness. -/
def c7Sessions : GameSessions Nat :=
  fun k => if k = "R" then some { cSession with hostReady := false } else none

/-- Concrete verify function interpreting the stored hash as the password
itself, used for concrete evaluations. -/
def eqVerify : String → String → Bool := fun h p => h == p

/-- Verify function accepting everything, used to show independence from the
verification outcome. -/
def constVerify : String → String → Bool := fun _ _ => true

/-- Room with only the host connected, used for the C5 leave and disconnect
scenarios. -/
def c5Room : InMemoryRoom :=
  { roomId := "R5", passwordHash := "pw5", status := RoomStatus.opened,
    hostSocketId := some "h5", hostDisplayName := some "H",
    peerSocketId := none, peerDisplayName := none,
    currentGameKey := none, serverSeq := 0, createdAt := 0 }

def c5State : ServerState :=
  { rooms := setRoom (fun _ => none) "R5" (some c5Room), rateLimits := fun _ => none }

/-- Full open room used for the C3 scenarios. -/
def c3Room : InMemoryRoom :=
  { roomId := "R3", passwordHash := "secret", status := RoomStatus.opened,
    hostSocketId := some "h3", hostDisplayName := some "H",
    peerSocketId := some "p3", peerDisplayName := some "P",
    currentGameKey := none, serverSeq := 0, createdAt := 0 }

def c3State : ServerState :=
  { rooms := setRoom (fun _ => none) "R3" (some c3Room), rateLimits := fun _ => none }

/-- Closed room used for the C4 scenarios. -/
def c4Room : InMemoryRoom :=
  { roomId := "R4", passwordHash := "pw4", status := RoomStatus.closed,
    hostSocketId := some "h4", hostDisplayName := some "H",
    peerSocketId := none, peerDisplayName := none,
    currentGameKey := none, serverSeq := 0, createdAt := 0 }

def c4State : ServerState :=
  { rooms := setRoom (fun _ => none) "R4" (some c4Room), rateLimits := fun _ => none }

/-- State after one ROOM_JOIN request, used to chain repeated join attempts. -/
def joinStep (verify : String → String → Bool) (socketId roomId password displayName : String)
    (st : ServerState) (now : Nat) : ServerState :=
  (joinRoom verify st socketId roomId password displayName now).state

/-- Open room guarded by the password of the lockout scenario. -/
def c2Room : InMemoryRoom :=
  { roomId := "R2", passwordHash := "Passw0rd!", status := RoomStatus.opened,
    hostSocketId := some "h2", hostDisplayName := some "H",
    peerSocketId := none, peerDisplayName := none,
    currentGameKey := none, serverSeq := 0, createdAt := 0 }

def c2State : ServerState :=
  { rooms := setRoom (fun _ => none) "R2" (some c2Room), rateLimits := fun _ => none }

def c2S1 : ServerState := joinStep eqVerify "s" "R2" "nope" "P" c2State 0

def c2S2 : ServerState := joinStep eqVerify "s" "R2" "nope" "P" c2S1 1

def c2S3 : ServerState := joinStep eqVerify "s" "R2" "nope" "P" c2S2 2

def c2S4 : ServerState := joinStep eqVerify "s" "R2" "nope" "P" c2S3 3

def c2S5 : ServerState := joinStep eqVerify "s" "R2" "nope" "P" c2S4 4

/-- Server state with no rooms at all, used for the joins to a nonexistent
room id. -/
def cXState : ServerState := { rooms := fun _ => none, rateLimits := fun _ => none }

def c10S1 : ServerState := joinStep eqVerify "s" "NoRoom" "pw" "P" cXState 0

def c10S2 : ServerState := joinStep eqVerify "s" "NoRoom" "pw" "P" c10S1 1

def c10S3 : ServerState := joinStep eqVerify "s" "NoRoom" "pw" "P" c10S2 2

def c10S4 : ServerState := joinStep eqVerify "s" "NoRoom" "pw" "P" c10S3 3

def c10S5 : ServerState := joinStep eqVerify "s" "NoRoom" "pw" "P" c10S4 4

/- Theorems. -/

/- Basic lemmas about the guard. -/

theorem setRecord_self (store : RateLimitStore) (roomId : String) (v : Option RateLimitState) :
    setRecord store roomId v roomId = v := by
  simp [setRecord]

theorem setRecord_other (store : RateLimitStore) (roomId k : String) (v : Option RateLimitState)
    (h : k ≠ roomId) : setRecord store roomId v k = store k := by
  simp [setRecord, h]

theorem setRoom_self (rooms : RoomStore) (roomId : String) (v : Option InMemoryRoom) :
    setRoom rooms roomId v roomId = v := by
  simp [setRoom]

theorem setRoom_other (rooms : RoomStore) (roomId k : String) (v : Option InMemoryRoom)
    (h : k ≠ roomId) : setRoom rooms roomId v k = rooms k := by
  simp [setRoom, h]

theorem isRateLimited_of_none {store : RateLimitStore} {roomId : String} (now : Nat)
    (h : store roomId = none) :
    isRateLimited store roomId now = (⟨false, none⟩, store) := by
  simp [isRateLimited, h]

theorem isRateLimited_of_noLock {store : RateLimitStore} {roomId : String} (now : Nat)
    {s : RateLimitState} (h : store roomId = some s) (h2 : s.lockedUntil = none) :
    isRateLimited store roomId now = (⟨false, none⟩, store) := by
  simp [isRateLimited, h, h2]

theorem isRateLimited_of_locked {store : RateLimitStore} {roomId : String} {now : Nat}
    {s : RateLimitState} {lu : Nat} (h : store roomId = some s) (h2 : s.lockedUntil = some lu)
    (h3 : now < lu) :
    isRateLimited store roomId now = (⟨true, some (lu - now)⟩, store) := by
  simp [isRateLimited, h, h2, h3]

theorem recordFailedAttempt_fresh {store : RateLimitStore} {roomId : String} (now : Nat)
    (h : store roomId = none) :
    recordFailedAttempt store roomId now =
      (⟨false, 4⟩, setRecord store roomId (some ⟨1, none, now⟩)) := by
  simp [recordFailedAttempt, h, MAX_ATTEMPTS, ATTEMPT_WINDOW_MS]

theorem recordFailedAttempt_step {store : RateLimitStore} {roomId : String} (now : Nat)
    {a t : Nat} {lu : Option Nat} (h : store roomId = some ⟨a, lu, t⟩)
    (hw : now - t ≤ ATTEMPT_WINDOW_MS) (ha : a + 1 < MAX_ATTEMPTS) :
    recordFailedAttempt store roomId now =
      (⟨false, MAX_ATTEMPTS - (a + 1)⟩, setRecord store roomId (some ⟨a + 1, lu, now⟩)) := by
  simp only [recordFailedAttempt, h, Option.getD_some]
  have hw' : ¬ ATTEMPT_WINDOW_MS < now - t := Nat.not_lt.mpr hw
  have ha' : ¬ MAX_ATTEMPTS ≤ a + 1 := Nat.not_le.mpr ha
  simp [hw', ha']

theorem recordFailedAttempt_lock {store : RateLimitStore} {roomId : String} (now : Nat)
    {a t : Nat} {lu : Option Nat} (h : store roomId = some ⟨a, lu, t⟩)
    (hw : now - t ≤ ATTEMPT_WINDOW_MS) (ha : MAX_ATTEMPTS ≤ a + 1) :
    recordFailedAttempt store roomId now =
      (⟨true, 0⟩, setRecord store roomId
        (some ⟨a + 1, some (now + LOCKOUT_DURATION_MS), now⟩)) := by
  simp only [recordFailedAttempt, h, Option.getD_some]
  have hw' : ¬ ATTEMPT_WINDOW_MS < now - t := Nat.not_lt.mpr hw
  simp [hw', ha]

/- Theorems for the claims. -/

/-- C9: an ICE candidate received before the endpoint has applied a remote
description (no peer connection yet, or remote description not set) is
appended to the pending buffer with the applied list untouched; and once the
remote description is applied while handling an offer (in a state where the
endpoint accepts it) or an answer, every buffered candidate is added in order
and the buffer is emptied, so no candidate is discarded in this window. -/
theorem c9_ice_buffered_then_flushed {C : Type} :
    (∀ (e : RTCEndpoint C) (c : C), e.hasPc = false ∨ e.remoteDescSet = false →
       handleIceCandidate e c = { e with pending := e.pending ++ [c] }) ∧
    (∀ e : RTCEndpoint C, e.hasPc = true → e.signalingStable = true ∨ e.isHost = false →
       (handleOffer e).1.remoteDescSet = true ∧
       (handleOffer e).1.applied = e.applied ++ e.pending ∧
       (handleOffer e).1.pending = []) ∧
    (∀ e : RTCEndpoint C, e.hasPc = true →
       (handleAnswer e).remoteDescSet = true ∧
       (handleAnswer e).applied = e.applied ++ e.pending ∧
       (handleAnswer e).pending = []) := by
  refine ⟨?_, ?_, ?_⟩
  · intro e c h
    rcases h with h | h
    · simp [handleIceCandidate, h]
    · by_cases hpc : e.hasPc = false
      · simp [handleIceCandidate, hpc]
      · simp [handleIceCandidate, hpc, h]
  · intro e hpc h
    have hcond : (!e.signalingStable && e.isHost) = false := by
      rcases h with h | h <;> simp [h]
    simp [handleOffer, hpc, hcond, applyRemoteDescription]
  · intro e hpc
    simp [handleAnswer, hpc, applyRemoteDescription]

/-- Witness for C9 at a concrete endpoint with one buffered candidate. -/
theorem c9_witness :
    handleIceCandidate c9Endpoint 9 = { c9Endpoint with pending := c9Endpoint.pending ++ [9] } ∧
    ((handleOffer c9Endpoint).1.remoteDescSet = true ∧
     (handleOffer c9Endpoint).1.applied = c9Endpoint.applied ++ c9Endpoint.pending ∧
     (handleOffer c9Endpoint).1.pending = []) ∧
    ((handleAnswer c9Endpoint).remoteDescSet = true ∧
     (handleAnswer c9Endpoint).applied = c9Endpoint.applied ++ c9Endpoint.pending ∧
     (handleAnswer c9Endpoint).pending = []) :=
  ⟨(@c9_ice_buffered_then_flushed Nat).1 c9Endpoint 9 (Or.inr rfl),
   (@c9_ice_buffered_then_flushed Nat).2.1 c9Endpoint rfl (Or.inl rfl),
   (@c9_ice_buffered_then_flushed Nat).2.2 c9Endpoint rfl⟩

/-- C6: closeRoom is a no-op whenever the caller is not the occupant of the
host slot (including a missing room), and when the host-slot occupant calls
it the peer is notified, every connection leaves the broadcast group, and the
room is deleted immediately, with no timer of any kind. -/
theorem c6_close_room_host_only :
    (∀ (st : ServerState) (socketId roomId : String),
       (∀ room, st.rooms roomId = some room → room.hostSocketId ≠ some socketId) →
       closeRoom st socketId roomId = { state := st, emits := [] }) ∧
    (∀ (st : ServerState) (socketId roomId : String) (room : InMemoryRoom),
       st.rooms roomId = some room → room.hostSocketId = some socketId →
       closeRoom st socketId roomId =
         { state := { st with rooms := setRoom st.rooms roomId none }
           emits := (match room.peerSocketId with
                     | some p => [RoomEmit.roomClosedEvt p roomId]
                     | none => []) ++ [RoomEmit.socketsLeave roomId] }) := by
  constructor
  · intro st sid rid h
    unfold closeRoom
    cases hr : st.rooms rid with
    | none => rfl
    | some room => simp [h room hr]
  · intro st sid rid room hr hh
    unfold closeRoom
    rw [hr]
    simp [hh]

/-- Witness for C6: the peer cannot close the room, the host closes it with
notification, group removal and immediate deletion. -/
theorem c6_witness :
    closeRoom c6State "p6" "R6" = { state := c6State, emits := [] } ∧
    closeRoom c6State "h6" "R6" =
      { state := { c6State with rooms := setRoom c6State.rooms "R6" none }
        emits := (match c6Room.peerSocketId with
                  | some p => [RoomEmit.roomClosedEvt p "R6"]
                  | none => []) ++ [RoomEmit.socketsLeave "R6"] } :=
  ⟨c6_close_room_host_only.1 c6State "p6" "R6"
     (by
       intro room h
       have h2 : some c6Room = some room := h
       cases h2
       decide),
   c6_close_room_host_only.2 c6State "h6" "R6" c6Room rfl rfl⟩

/-- C1: on an existing session for the submitted key, a rejected
validateAction leaves the sessions map untouched, answers the caller with the
invalid-action error, and never consults applyAction (replacing applyAction by
any other function yields the identical outcome); an accepted action replaces
the state by the applyAction result and increments the sequence number by
exactly one. -/
theorem c1_validate_then_apply {S A : Type} (getGame : String → Option (Game S A))
    (sessions : GameSessions S) (callerRole : PlayerRole) (roomId gameKey : String)
    (action : A) (gs : RoomGameState S) (g : Game S A)
    (hs : sessions roomId = some gs) (hk : gs.gameKey = gameKey)
    (hg : getGame gameKey = some g) :
    ((g.validateAction gs.state callerRole action).valid = false →
       (gameAction getGame sessions (some roomId) callerRole roomId gameKey action).sessions
         = sessions ∧
       (gameAction getGame sessions (some roomId) callerRole roomId gameKey action).ack
         = GameAck.err roomId gameKey ErrorCode.gameInvalidAction
             ((g.validateAction gs.state callerRole action).error.getD "Invalid action") ∧
       (∀ f : S → PlayerRole → A → S,
          gameAction (overrideApply getGame gameKey f) sessions (some roomId) callerRole
              roomId gameKey action
            = gameAction getGame sessions (some roomId) callerRole roomId gameKey action)) ∧
    ((g.validateAction gs.state callerRole action).valid = true →
       (gameAction getGame sessions (some roomId) callerRole roomId gameKey action).sessions
           roomId
         = some { gs with state := g.applyAction gs.state callerRole action,
                          serverSeq := gs.serverSeq + 1 }) := by
  constructor
  · intro hv
    refine ⟨?_, ?_, ?_⟩
    · simp [gameAction, hs, hk, hg, hv]
    · simp [gameAction, hs, hk, hg, hv]
    · intro f
      simp [gameAction, hs, hk, hg, hv, overrideApply]
  · intro hv
    have hv' : ¬ (g.validateAction gs.state callerRole action).valid = false := by
      simp [hv]
    simp [gameAction, hs, hk, hg, hv', setSession]

/-- Exhaustive characterization of the GAME_ACTION handler: either the action
is rejected with an acknowledgment error, the sessions map untouched and
nothing emitted, or it is accepted: the state replaced by the applyAction
result, the sequence number incremented, the new state acknowledged and
broadcast, followed by an ended broadcast exactly when a win was detected. -/
theorem gameAction_cases {S A : Type} (getGame : String → Option (Game S A))
    (sessions : GameSessions S) (callerRoomId : Option String) (callerRole : PlayerRole)
    (roomId gameKey : String) (action : A) :
    (∃ c m, gameAction getGame sessions callerRoomId callerRole roomId gameKey action
        = ⟨sessions, GameAck.err roomId gameKey c m, []⟩) ∨
    (∃ gs g, sessions roomId = some gs ∧ getGame gameKey = some g ∧
       (g.validateAction gs.state callerRole action).valid = true ∧
       gameAction getGame sessions callerRoomId callerRole roomId gameKey action
        = ⟨setSession sessions roomId
             (some { gs with state := g.applyAction gs.state callerRole action,
                             serverSeq := gs.serverSeq + 1 }),
           GameAck.ok roomId gameKey (g.applyAction gs.state callerRole action)
             (gs.serverSeq + 1),
           [GameEmit.stateToRoom roomId gameKey (g.applyAction gs.state callerRole action)
              (gs.serverSeq + 1)] ++
           (match g.checkWinCondition (g.applyAction gs.state callerRole action) with
            | some w => [GameEmit.endedToRoom roomId gameKey w.winner
                (g.applyAction gs.state callerRole action)]
            | none => [])⟩) := by
  by_cases h1 : callerRoomId ≠ some roomId
  · exact Or.inl ⟨ErrorCode.forbidden, "Not in this room", by simp [gameAction, h1]⟩
  · push_neg at h1
    cases hs : sessions roomId with
    | none =>
      exact Or.inl ⟨ErrorCode.gameNotStarted, "Game not started", by simp [gameAction, h1, hs]⟩
    | some gs =>
      by_cases hk : gs.gameKey ≠ gameKey
      · exact Or.inl ⟨ErrorCode.gameNotStarted, "Game not started",
          by simp [gameAction, h1, hs, hk]⟩
      · push_neg at hk
        cases hg : getGame gameKey with
        | none =>
          exact Or.inl ⟨ErrorCode.gameNotFound, "Game not found",
            by simp [gameAction, h1, hs, hk, hg]⟩
        | some g =>
          by_cases hv : (g.validateAction gs.state callerRole action).valid = false
          · exact Or.inl ⟨ErrorCode.gameInvalidAction,
              (g.validateAction gs.state callerRole action).error.getD "Invalid action",
              by simp [gameAction, h1, hs, hk, hg, hv]⟩
          · refine Or.inr ⟨gs, g, rfl, rfl, by simpa using hv, ?_⟩
            simp [gameAction, h1, hs, hk, hg, hv]

/-- C8: every per-request rejection of GAME_ACTION is delivered only through
the acknowledgment: an error acknowledgment comes with an empty emit list and
an unchanged sessions map, no error payload is ever emitted, and anything
broadcast at all implies the action was accepted and acknowledged with the new
state. -/
theorem c8_errors_never_broadcast {S A : Type} (getGame : String → Option (Game S A))
    (sessions : GameSessions S) (callerRoomId : Option String) (callerRole : PlayerRole)
    (roomId gameKey : String) (action : A) :
    (∀ r k c m,
       (gameAction getGame sessions callerRoomId callerRole roomId gameKey action).ack
         = GameAck.err r k c m →
       (gameAction getGame sessions callerRoomId callerRole roomId gameKey action).emits = [] ∧
       (gameAction getGame sessions callerRoomId callerRole roomId gameKey action).sessions
         = sessions) ∧
    (∀ r k c m, GameEmit.errorToCaller r k c m ∉
       (gameAction getGame sessions callerRoomId callerRole roomId gameKey action).emits) ∧
    ((gameAction getGame sessions callerRoomId callerRole roomId gameKey action).emits ≠ [] →
       ∃ s n, (gameAction getGame sessions callerRoomId callerRole roomId gameKey action).ack
         = GameAck.ok roomId gameKey s n) := by
  rcases gameAction_cases getGame sessions callerRoomId callerRole roomId gameKey action with
    ⟨c, m, h⟩ | ⟨gs, g, hs, hg, hv, h⟩
  · refine ⟨?_, ?_, ?_⟩
    · intro r k c' m' _
      simp [h]
    · intro r k c' m'
      simp [h]
    · intro hne
      exact absurd (by simp [h]) hne
  · refine ⟨?_, ?_, ?_⟩
    · intro r k c' m' hack
      rw [h] at hack
      exact absurd hack (by simp)
    · intro r k c' m'
      rw [h]
      cases hw : g.checkWinCondition (g.applyAction gs.state callerRole action) <;>
        simp [hw]
    · intro _
      exact ⟨g.applyAction gs.state callerRole action, gs.serverSeq + 1, by simp [h]⟩

/-- Witness for C1: the accepted action 4 moves the state from 3 to 7 and the
sequence number from 2 to 3; the rejected action 9 leaves the sessions map
untouched and is acknowledged with the invalid-action error. -/
theorem c1_witness :
    (gameAction cGames cSessions (some "R") PlayerRole.host "R" "g" 4).sessions "R"
      = some { cSession with state := cGame.applyAction cSession.state PlayerRole.host 4,
                             serverSeq := cSession.serverSeq + 1 } ∧
    (gameAction cGames cSessions (some "R") PlayerRole.host "R" "g" 9).sessions = cSessions ∧
    (gameAction cGames cSessions (some "R") PlayerRole.host "R" "g" 9).ack
      = GameAck.err "R" "g" ErrorCode.gameInvalidAction
          ((cGame.validateAction cSession.state PlayerRole.host 9).error.getD
            "Invalid action") :=
  ⟨(c1_validate_then_apply cGames cSessions PlayerRole.host "R" "g" 4 cSession cGame
      rfl rfl rfl).2 (by decide),
   ((c1_validate_then_apply cGames cSessions PlayerRole.host "R" "g" 9 cSession cGame
      rfl rfl rfl).1 (by decide)).1,
   ((c1_validate_then_apply cGames cSessions PlayerRole.host "R" "g" 9 cSession cGame
      rfl rfl rfl).1 (by decide)).2.1⟩

/-- Witness for C8 at a concrete rejected action (no session for room X) and a
concrete accepted action. -/
theorem c8_witness :
    ((gameAction cGames cSessions (some "X") PlayerRole.host "X" "g" 1).emits = [] ∧
     (gameAction cGames cSessions (some "X") PlayerRole.host "X" "g" 1).sessions = cSessions) ∧
    (GameEmit.errorToCaller "R" "g" ErrorCode.gameInvalidAction "Too big" ∉
       (gameAction cGames cSessions (some "R") PlayerRole.host "R" "g" 9).emits) ∧
    (∃ s n, (gameAction cGames cSessions (some "R") PlayerRole.host "R" "g" 4).ack
       = GameAck.ok "R" "g" s n) :=
  ⟨(c8_errors_never_broadcast cGames cSessions (some "X") PlayerRole.host "X" "g" 1).1
      "X" "g" ErrorCode.gameNotStarted "Game not started" (by decide),
   (c8_errors_never_broadcast cGames cSessions (some "R") PlayerRole.host "R" "g" 9).2.1
      "R" "g" ErrorCode.gameInvalidAction "Too big",
   (c8_errors_never_broadcast cGames cSessions (some "R") PlayerRole.host "R" "g" 4).2.2
      (by decide)⟩

/-- C7: with the caller inside an existing room and a registered game key, a
host select starts the game at once: the session is initialized from the init
of the game with sequence number 1 and a start event is broadcast; a non-host
select never initializes state on its own: with a matching session it only
sets peerReady, starting the game exactly when hostReady already holds, and
with no matching session it changes nothing. -/
theorem c7_host_starts_peer_readies {S A : Type} (getGame : String → Option (Game S A))
    (sessions : GameSessions S) (rooms : RoomStore) (roomId gameKey : String)
    (room : InMemoryRoom) (g : Game S A)
    (hroom : rooms roomId = some room) (hg : getGame gameKey = some g) :
    (gameSelect getGame sessions rooms (some roomId) (some PlayerRole.host) roomId gameKey
       = startGame getGame sessions rooms roomId gameKey ∧
     (gameSelect getGame sessions rooms (some roomId) (some PlayerRole.host) roomId
        gameKey).sessions roomId = some ⟨gameKey, g.init, 1, true, true⟩ ∧
     GameEmit.startToRoom roomId gameKey g.init ∈
       (gameSelect getGame sessions rooms (some roomId) (some PlayerRole.host) roomId
          gameKey).emits) ∧
    (∀ gs, sessions roomId = some gs → gs.gameKey = gameKey → gs.hostReady = true →
       gameSelect getGame sessions rooms (some roomId) (some PlayerRole.peer) roomId gameKey
         = startGame getGame (setSession sessions roomId (some { gs with peerReady := true }))
             rooms roomId gameKey) ∧
    (∀ gs, sessions roomId = some gs → gs.gameKey = gameKey → gs.hostReady = false →
       gameSelect getGame sessions rooms (some roomId) (some PlayerRole.peer) roomId gameKey
         = ⟨setSession sessions roomId (some { gs with peerReady := true }), rooms, []⟩) ∧
    ((∀ gs, sessions roomId = some gs → gs.gameKey ≠ gameKey) →
       gameSelect getGame sessions rooms (some roomId) (some PlayerRole.peer) roomId gameKey
         = ⟨sessions, rooms, []⟩) := by
  refine ⟨⟨?_, ?_, ?_⟩, ?_, ?_, ?_⟩
  · simp [gameSelect, hroom, isGameRegistered, hg]
  · simp [gameSelect, hroom, isGameRegistered, hg, startGame, setSession]
  · simp [gameSelect, hroom, isGameRegistered, hg, startGame]
  · intro gs hs hk hh
    simp [gameSelect, hroom, isGameRegistered, hg, hs, hk, hh]
  · intro gs hs hk hh
    simp [gameSelect, hroom, isGameRegistered, hg, hs, hk, hh]
  · intro hnone
    cases hs : sessions roomId with
    | none => simp [gameSelect, hroom, isGameRegistered, hg, hs]
    | some gs => simp [gameSelect, hroom, isGameRegistered, hg, hs, hnone gs hs]

/-- Witness for C7: a host select on room R starts the game immediately; a
peer select with the host not ready only records readiness and emits
nothing. -/
theorem c7_witness :
    (gameSelect cGames cSessions c7Rooms (some "R") (some PlayerRole.host) "R" "g").sessions "R"
      = some ⟨"g", cGame.init, 1, true, true⟩ ∧
    gameSelect cGames c7Sessions c7Rooms (some "R") (some PlayerRole.peer) "R" "g"
      = ⟨setSession c7Sessions "R"
           (some { { cSession with hostReady := false } with peerReady := true }),
         c7Rooms, []⟩ :=
  ⟨(c7_host_starts_peer_readies cGames cSessions c7Rooms "R" "g" c6Room cGame rfl rfl).1.2.1,
   (c7_host_starts_peer_readies cGames c7Sessions c7Rooms "R" "g" c6Room cGame rfl
      rfl).2.2.1 { cSession with hostReady := false } rfl rfl rfl⟩

/-- Counterexample to C5 as stated: an explicit ROOM_LEAVE by the last
occupant deletes the room immediately and schedules no grace timer, so the
claimed deferred deletion does not hold for explicit leaveRoom. -/
theorem c5_counterexample :
    (leaveRoom c5State "h5" "R5" "H").state.rooms "R5" = none ∧
    (leaveRoom c5State "h5" "R5" "H").timers = [] := by
  decide

/-- C5 amended: when a DISCONNECT vacates the last occupied slot the room is
kept and a delayed cleanup timer is scheduled; the fired timer deletes the
room only if both slots are still vacant and is a no-op when a slot was
refilled; an explicit leaveRoom that empties the room instead deletes it
immediately with no timer. -/
theorem c5_grace_period_on_disconnect :
    (∀ (st : ServerState) (socketId roomId displayName : String) (room : InMemoryRoom),
       st.rooms roomId = some room →
       (room.hostSocketId = some socketId ∧ room.peerSocketId = none) ∨
         (room.peerSocketId = some socketId ∧ room.hostSocketId = none) →
       (handleRoomDisconnect st socketId (some roomId) displayName).state.rooms roomId ≠ none ∧
       (handleRoomDisconnect st socketId (some roomId) displayName).timers = [roomId]) ∧
    (∀ (st : ServerState) (roomId : String) (room : InMemoryRoom),
       st.rooms roomId = some room →
       room.hostSocketId.isSome = true ∨ room.peerSocketId.isSome = true →
       fireRoomCleanup st roomId = st) ∧
    (∀ (st : ServerState) (roomId : String) (room : InMemoryRoom),
       st.rooms roomId = some room →
       room.hostSocketId = none → room.peerSocketId = none →
       (fireRoomCleanup st roomId).rooms roomId = none) ∧
    (∀ (st : ServerState) (socketId roomId displayName : String) (room : InMemoryRoom),
       st.rooms roomId = some room →
       (room.hostSocketId = some socketId ∧ room.peerSocketId = none) ∨
         (room.peerSocketId = some socketId ∧ room.hostSocketId = none) →
       (leaveRoom st socketId roomId displayName).state.rooms roomId = none ∧
       (leaveRoom st socketId roomId displayName).timers = []) := by
  refine ⟨?_, ?_, ?_, ?_⟩
  · intro st sid rid nm room hroom h
    rcases h with ⟨hh, hp⟩ | ⟨hp, hh⟩
    · constructor
      · simp [handleRoomDisconnect, hroom, clearCallerSlot, hh, hp, setRoom_self]
      · simp [handleRoomDisconnect, hroom, clearCallerSlot, hh, hp]
    · constructor
      · simp [handleRoomDisconnect, hroom, clearCallerSlot, hh, hp, setRoom_self]
      · simp [handleRoomDisconnect, hroom, clearCallerSlot, hh, hp]
  · intro st rid room hroom h
    have hcond : (room.hostSocketId.isNone && room.peerSocketId.isNone) = false := by
      rcases h with h | h
      · obtain ⟨v, hv⟩ := Option.isSome_iff_exists.mp h
        simp [hv]
      · obtain ⟨v, hv⟩ := Option.isSome_iff_exists.mp h
        simp [hv]
    simp [fireRoomCleanup, hroom, hcond]
  · intro st rid room hroom h1 h2
    simp [fireRoomCleanup, hroom, h1, h2, setRoom_self]
  · intro st sid rid nm room hroom h
    rcases h with ⟨hh, hp⟩ | ⟨hp, hh⟩
    · constructor
      · simp [leaveRoom, hroom, clearCallerSlot, hh, hp, setRoom_self]
      · simp [leaveRoom, hroom, clearCallerSlot, hh, hp]
    · constructor
      · simp [leaveRoom, hroom, clearCallerSlot, hh, hp, setRoom_self]
      · simp [leaveRoom, hroom, clearCallerSlot, hh, hp]

/-- Witness for the amended C5: host disconnect on a room with a vacant peer
slot keeps the room and schedules the timer; the fired timer then deletes it;
firing against a still-occupied room changes nothing; explicit leave deletes
at once. -/
theorem c5_witness :
    ((handleRoomDisconnect c5State "h5" (some "R5") "H").state.rooms "R5" ≠ none ∧
     (handleRoomDisconnect c5State "h5" (some "R5") "H").timers = ["R5"]) ∧
    fireRoomCleanup c6State "R6" = c6State ∧
    (fireRoomCleanup (handleRoomDisconnect c5State "h5" (some "R5") "H").state "R5").rooms "R5"
      = none ∧
    ((leaveRoom c5State "h5" "R5" "H").state.rooms "R5" = none ∧
     (leaveRoom c5State "h5" "R5" "H").timers = []) :=
  ⟨c5_grace_period_on_disconnect.1 c5State "h5" "R5" "H" c5Room rfl
     (Or.inl ⟨rfl, rfl⟩),
   c5_grace_period_on_disconnect.2.1 c6State "R6" c6Room rfl (Or.inl rfl),
   c5_grace_period_on_disconnect.2.2.1
     (handleRoomDisconnect c5State "h5" (some "R5") "H").state "R5"
     { c5Room with hostSocketId := none, hostDisplayName := none } (by decide) rfl rfl,
   c5_grace_period_on_disconnect.2.2.2 c5State "h5" "R5" "H" c5Room rfl
     (Or.inl ⟨rfl, rfl⟩)⟩

/-- Counterexample to C3 as stated: a join attempt to a room with both slots
occupied does NOT always return the room-full result — with a wrong password
the handler answers with the password error instead, because the capacity
check runs only after authentication. -/
theorem c3_counterexample :
    (joinRoom eqVerify c3State "s9" "R3" "wrong" "N" 0).result
      = JoinResult.invalidPassword 4 ∧
    JoinResult.invalidPassword 4 ≠ JoinResult.full := by
  decide

/-- Case analysis of the room entry after a join: either the rooms map entry
is untouched, or the vacant host slot was filled, or the vacant peer slot was
filled; an occupied slot is never overwritten. -/
theorem joinRoom_rooms_cases (verify : String → String → Bool) (st : ServerState)
    (socketId roomId password displayName : String) (now : Nat) (room : InMemoryRoom)
    (hroom : st.rooms roomId = some room) :
    (joinRoom verify st socketId roomId password displayName now).state.rooms roomId
      = some room ∨
    (room.hostSocketId = none ∧
      (joinRoom verify st socketId roomId password displayName now).state.rooms roomId
        = some { room with hostSocketId := some socketId,
                           hostDisplayName := some displayName }) ∨
    (room.peerSocketId = none ∧
      (joinRoom verify st socketId roomId password displayName now).state.rooms roomId
        = some { room with peerSocketId := some socketId,
                           peerDisplayName := some displayName }) := by
  by_cases hlim : (isRateLimited st.rateLimits roomId now).1.limited = true
  · left
    simp [joinRoom, hlim, hroom]
  · by_cases hclosed : room.status = RoomStatus.closed
    · left
      simp [joinRoom, hlim, hroom, hclosed]
    · by_cases hbad : verify room.passwordHash password = false
      · left
        simp [joinRoom, hlim, hroom, hclosed, hbad]
        split <;> simp [hroom]
      · by_cases hfull : (room.peerSocketId.isSome && room.hostSocketId.isSome) = true
        · left
          simp [joinRoom, hlim, hroom, hclosed, hbad, hfull]
        · by_cases hhost : room.hostSocketId.isNone = true
          · right; left
            refine ⟨Option.isNone_iff_eq_none.mp hhost, ?_⟩
            simp [joinRoom, hlim, hroom, hclosed, hbad, hfull, hhost, finishJoin]
            split <;> simp [setRoom_self]
          · by_cases hpeer : room.peerSocketId.isNone = true
            · right; right
              refine ⟨Option.isNone_iff_eq_none.mp hpeer, ?_⟩
              simp [joinRoom, hlim, hroom, hclosed, hbad, hfull, hhost, hpeer, finishJoin]
              split <;> simp [setRoom_self]
            · left
              simp [joinRoom, hlim, hroom, hclosed, hbad, hfull, hhost, hpeer]

/-- C3 amended: joinRoom never overwrites an occupied slot (each slot keeps
its single occupant), and a join to an existing open room with both slots
occupied that passes the rate-limit check and carries the correct password
returns the room-full result with the rooms map completely unchanged. A join
rejected earlier (lockout, closed room, bad password) also leaves both slots
unchanged but reports that earlier error instead of room-full. -/
theorem c3_slots_exclusive_full_rejected (verify : String → String → Bool) (st : ServerState)
    (socketId roomId password displayName : String) (now : Nat) (room : InMemoryRoom)
    (hroom : st.rooms roomId = some room) :
    (∀ h room', room.hostSocketId = some h →
       (joinRoom verify st socketId roomId password displayName now).state.rooms roomId
         = some room' → room'.hostSocketId = some h) ∧
    (∀ p room', room.peerSocketId = some p →
       (joinRoom verify st socketId roomId password displayName now).state.rooms roomId
         = some room' → room'.peerSocketId = some p) ∧
    ((isRateLimited st.rateLimits roomId now).1.limited = false →
     room.status = RoomStatus.opened →
     verify room.passwordHash password = true →
     room.hostSocketId.isSome = true → room.peerSocketId.isSome = true →
     (joinRoom verify st socketId roomId password displayName now).result = JoinResult.full ∧
     (joinRoom verify st socketId roomId password displayName now).state.rooms = st.rooms) := by
  refine ⟨?_, ?_, ?_⟩
  · intro h room' hh heq
    rcases joinRoom_rooms_cases verify st socketId roomId password displayName now room hroom
      with hc | ⟨hn, hc⟩ | ⟨hn, hc⟩
    · rw [hc] at heq
      cases heq
      exact hh
    · rw [hn] at hh
      cases hh
    · rw [hc] at heq
      cases heq
      exact hh
  · intro p room' hp heq
    rcases joinRoom_rooms_cases verify st socketId roomId password displayName now room hroom
      with hc | ⟨hn, hc⟩ | ⟨hn, hc⟩
    · rw [hc] at heq
      cases heq
      exact hp
    · rw [hc] at heq
      cases heq
      exact hp
    · rw [hn] at hp
      cases hp
  · intro hlim hopen hgood hhost hpeer
    have hlim' : ¬ (isRateLimited st.rateLimits roomId now).1.limited = true := by
      simp [hlim]
    have hclosed : ¬ room.status = RoomStatus.closed := by
      rw [hopen]
      decide
    have hbad : ¬ verify room.passwordHash password = false := by
      simp [hgood]
    have hfull : (room.peerSocketId.isSome && room.hostSocketId.isSome) = true := by
      simp [hhost, hpeer]
    constructor
    · simp [joinRoom, hlim', hroom, hclosed, hbad, hfull]
    · simp [joinRoom, hlim', hroom, hclosed, hbad, hfull]

/-- Witness for the amended C3: a join to the full room R3 with the correct
password yields room-full and leaves the rooms map unchanged. -/
theorem c3_witness :
    (joinRoom eqVerify c3State "s9" "R3" "secret" "N" 0).result = JoinResult.full ∧
    (joinRoom eqVerify c3State "s9" "R3" "secret" "N" 0).state.rooms = c3State.rooms :=
  (c3_slots_exclusive_full_rejected eqVerify c3State "s9" "R3" "secret" "N" 0 c3Room
    rfl).2.2 (by decide) rfl (by decide) rfl rfl

/-- Counterexample to C4 as stated: a join to a closed room with a WRONG
password is rejected with the closed-room error and no Guard failure is
recorded, so the password is not verified before the closed-room check. -/
theorem c4_counterexample :
    (joinRoom eqVerify c4State "s2" "R4" "wrong" "E" 5).result = JoinResult.roomClosed ∧
    eqVerify c4Room.passwordHash "wrong" = false ∧
    (joinRoom eqVerify c4State "s2" "R4" "wrong" "E" 5).state.rateLimits "R4" = none := by
  decide

/-- C4 amended: in joinRoom the closed-room check precedes password
verification: a join to a closed room produces a result that is entirely
independent of the supplied password and of the verification function, the
rooms map is unchanged, the Guard store changes only by the expired-lockout
cleanup inside isRateLimited (no failure is recorded and no reset happens),
and the result is the closed rejection, or the lockout rejection when the id
is currently locked. -/
theorem c4_closed_check_precedes_verify (verify verify' : String → String → Bool)
    (st : ServerState) (socketId roomId password password' displayName : String) (now : Nat)
    (room : InMemoryRoom) (hroom : st.rooms roomId = some room)
    (hclosed : room.status = RoomStatus.closed) :
    joinRoom verify st socketId roomId password displayName now
      = joinRoom verify' st socketId roomId password' displayName now ∧
    (joinRoom verify st socketId roomId password displayName now).state.rooms = st.rooms ∧
    (joinRoom verify st socketId roomId password displayName now).state.rateLimits
      = (isRateLimited st.rateLimits roomId now).2 ∧
    ((joinRoom verify st socketId roomId password displayName now).result
        = JoinResult.roomClosed ∨
      ∃ r, (joinRoom verify st socketId roomId password displayName now).result
        = JoinResult.rateLimited r) := by
  by_cases hlim : (isRateLimited st.rateLimits roomId now).1.limited = true
  · refine ⟨?_, ?_, ?_,
      Or.inr ⟨(isRateLimited st.rateLimits roomId now).1.lockoutRemaining.getD 0, ?_⟩⟩ <;>
      simp [joinRoom, hlim]
  · refine ⟨?_, ?_, ?_, Or.inl ?_⟩ <;> simp [joinRoom, hlim, hroom, hclosed]

/-- Witness for the amended C4: on the closed room R4, a join with a wrong
password under the real verifier equals a join with the right password under
a verifier that accepts everything. -/
theorem c4_witness :
    joinRoom eqVerify c4State "s2" "R4" "wrong" "E" 5
      = joinRoom constVerify c4State "s2" "R4" "pw4" "E" 5 ∧
    (joinRoom eqVerify c4State "s2" "R4" "wrong" "E" 5).state.rooms = c4State.rooms ∧
    (joinRoom eqVerify c4State "s2" "R4" "wrong" "E" 5).state.rateLimits
      = (isRateLimited c4State.rateLimits "R4" 5).2 ∧
    ((joinRoom eqVerify c4State "s2" "R4" "wrong" "E" 5).result = JoinResult.roomClosed ∨
      ∃ r, (joinRoom eqVerify c4State "s2" "R4" "wrong" "E" 5).result
        = JoinResult.rateLimited r) :=
  c4_closed_check_precedes_verify eqVerify constVerify c4State "s2" "R4" "wrong" "pw4" "E" 5
    c4Room rfl rfl

/-- Wrong-password join on an open room with no guard record: password error
with four attempts remaining, fresh record with one attempt. -/
theorem joinRoom_badpw_fresh (verify : String → String → Bool) (st : ServerState)
    (socketId roomId password displayName : String) (now : Nat) (room : InMemoryRoom)
    (hroom : st.rooms roomId = some room) (hopen : room.status = RoomStatus.opened)
    (hbad : verify room.passwordHash password = false)
    (hrec : st.rateLimits roomId = none) :
    joinRoom verify st socketId roomId password displayName now =
      { result := JoinResult.invalidPassword 4
        state := { st with rateLimits := setRecord st.rateLimits roomId (some ⟨1, none, now⟩) }
        emits := [] } := by
  have h1 := isRateLimited_of_none now hrec
  have h2 := recordFailedAttempt_fresh now hrec
  have hcl : ¬ room.status = RoomStatus.closed := by rw [hopen]; decide
  simp [joinRoom, h1, h2, hroom, hcl, hbad]

/-- Wrong-password join on an open room with an unlocked record inside the
window and below the threshold: one more attempt is recorded. -/
theorem joinRoom_badpw_step (verify : String → String → Bool) (st : ServerState)
    (socketId roomId password displayName : String) (now a t : Nat) (room : InMemoryRoom)
    (hroom : st.rooms roomId = some room) (hopen : room.status = RoomStatus.opened)
    (hbad : verify room.passwordHash password = false)
    (hrec : st.rateLimits roomId = some ⟨a, none, t⟩)
    (hw : now - t ≤ ATTEMPT_WINDOW_MS) (ha : a + 1 < MAX_ATTEMPTS) :
    joinRoom verify st socketId roomId password displayName now =
      { result := JoinResult.invalidPassword (MAX_ATTEMPTS - (a + 1))
        state := { st with rateLimits := setRecord st.rateLimits roomId (some ⟨a + 1, none, now⟩) }
        emits := [] } := by
  have h1 := isRateLimited_of_noLock now hrec rfl
  have h2 := recordFailedAttempt_step now hrec hw ha
  have hcl : ¬ room.status = RoomStatus.closed := by rw [hopen]; decide
  simp [joinRoom, h1, h2, hroom, hcl, hbad]

/-- Wrong-password join that reaches the threshold: the guard answers locked,
the handler returns the lockout error, and the record carries the lockout
deadline now + LOCKOUT_DURATION_MS. -/
theorem joinRoom_badpw_lock (verify : String → String → Bool) (st : ServerState)
    (socketId roomId password displayName : String) (now a t : Nat) (room : InMemoryRoom)
    (hroom : st.rooms roomId = some room) (hopen : room.status = RoomStatus.opened)
    (hbad : verify room.passwordHash password = false)
    (hrec : st.rateLimits roomId = some ⟨a, none, t⟩)
    (hw : now - t ≤ ATTEMPT_WINDOW_MS) (ha : MAX_ATTEMPTS ≤ a + 1) :
    joinRoom verify st socketId roomId password displayName now =
      { result := JoinResult.lockedAfterFailure
        state := { st with rateLimits := setRecord st.rateLimits roomId (some ⟨a + 1, some (now + LOCKOUT_DURATION_MS), now⟩) }
        emits := [] } := by
  have h1 := isRateLimited_of_noLock now hrec rfl
  have h2 := recordFailedAttempt_lock now hrec hw ha
  have hcl : ¬ room.status = RoomStatus.closed := by rw [hopen]; decide
  simp [joinRoom, h1, h2, hroom, hcl, hbad]

/-- A join while the stored lockout deadline is in the future is rejected by
the guard before the room or the password is ever consulted: the outcome does
not depend on the password or on the verifier, and the state is unchanged. -/
theorem joinRoom_whileLocked (verify : String → String → Bool) (st : ServerState)
    (socketId roomId password displayName : String) (now lu : Nat) (s : RateLimitState)
    (hrec : st.rateLimits roomId = some s) (hlu : s.lockedUntil = some lu)
    (hnow : now < lu) :
    joinRoom verify st socketId roomId password displayName now =
      { result := JoinResult.rateLimited (lu - now), state := st, emits := [] } := by
  have h1 := isRateLimited_of_locked hrec hlu hnow
  simp [joinRoom, h1]

/-- Join naming a nonexistent room id with no guard record: not-found error
and a fresh record with one attempt. -/
theorem joinRoom_notFound_fresh (verify : String → String → Bool) (st : ServerState)
    (socketId roomId password displayName : String) (now : Nat)
    (hroom : st.rooms roomId = none) (hrec : st.rateLimits roomId = none) :
    joinRoom verify st socketId roomId password displayName now =
      { result := JoinResult.notFound
        state := { st with rateLimits := setRecord st.rateLimits roomId (some ⟨1, none, now⟩) }
        emits := [] } := by
  have h1 := isRateLimited_of_none now hrec
  have h2 := recordFailedAttempt_fresh now hrec
  simp [joinRoom, h1, h2, hroom]

/-- Join naming a nonexistent room id with an unlocked record inside the
window and below the threshold: not-found error, one more attempt recorded. -/
theorem joinRoom_notFound_step (verify : String → String → Bool) (st : ServerState)
    (socketId roomId password displayName : String) (now a t : Nat)
    (hroom : st.rooms roomId = none)
    (hrec : st.rateLimits roomId = some ⟨a, none, t⟩)
    (hw : now - t ≤ ATTEMPT_WINDOW_MS) (ha : a + 1 < MAX_ATTEMPTS) :
    joinRoom verify st socketId roomId password displayName now =
      { result := JoinResult.notFound
        state := { st with rateLimits := setRecord st.rateLimits roomId (some ⟨a + 1, none, now⟩) }
        emits := [] } := by
  have h1 := isRateLimited_of_noLock now hrec rfl
  have h2 := recordFailedAttempt_step now hrec hw ha
  simp [joinRoom, h1, h2, hroom]

/-- Join naming a nonexistent room id that reaches the threshold: the record
is locked for LOCKOUT_DURATION_MS while the caller still receives the
not-found error. -/
theorem joinRoom_notFound_lock (verify : String → String → Bool) (st : ServerState)
    (socketId roomId password displayName : String) (now a t : Nat)
    (hroom : st.rooms roomId = none)
    (hrec : st.rateLimits roomId = some ⟨a, none, t⟩)
    (hw : now - t ≤ ATTEMPT_WINDOW_MS) (ha : MAX_ATTEMPTS ≤ a + 1) :
    joinRoom verify st socketId roomId password displayName now =
      { result := JoinResult.notFound
        state := { st with rateLimits := setRecord st.rateLimits roomId (some ⟨a + 1, some (now + LOCKOUT_DURATION_MS), now⟩) }
        emits := [] } := by
  have h1 := isRateLimited_of_noLock now hrec rfl
  have h2 := recordFailedAttempt_lock now hrec hw ha
  simp [joinRoom, h1, h2, hroom]

/-- After a successful password verification on an open room, the guard store
of the post-join state is exactly the resetAttempts of the store left by the
rate-limit check, in every continuation branch of the handler. -/
theorem joinRoom_goodpw_rateLimits (verify : String → String → Bool) (st : ServerState)
    (socketId roomId password displayName : String) (now : Nat) (room : InMemoryRoom)
    (hroom : st.rooms roomId = some room) (hopen : room.status = RoomStatus.opened)
    (hlim : (isRateLimited st.rateLimits roomId now).1.limited = false)
    (hgood : verify room.passwordHash password = true) :
    (joinRoom verify st socketId roomId password displayName now).state.rateLimits
      = resetAttempts (isRateLimited st.rateLimits roomId now).2 roomId := by
  have hlim' : ¬ (isRateLimited st.rateLimits roomId now).1.limited = true := by
    simp [hlim]
  have hcl : ¬ room.status = RoomStatus.closed := by rw [hopen]; decide
  have hbad : ¬ verify room.passwordHash password = false := by simp [hgood]
  simp [joinRoom, hlim', hroom, hcl, hbad, finishJoin]
  split_ifs <;> simp

/-- After resetAttempts, any record stored under the reset id has an attempt
counter of 0. -/
theorem resetAttempts_attempts (store : RateLimitStore) (roomId : String) (s : RateLimitState)
    (h : resetAttempts store roomId roomId = some s) : s.attempts = 0 := by
  cases hrl : store roomId with
  | none => simp [resetAttempts, hrl] at h
  | some q =>
    simp only [resetAttempts, hrl, setRecord_self, Option.some.injEq] at h
    subst h
    rfl

/-- C2: five wrong-password joins to an open room, each within the sliding
window of the previous one and starting from a clean guard record, are
answered with decreasing remaining-attempt hints, and exactly the fifth locks
the room for LOCKOUT_DURATION_MS (15 minutes); while the lockout deadline
lies in the future every further join for that id — whatever the password —
is rejected with the rate-limit error before the password is checked, leaving
the state untouched; and any join that verifies successfully while not locked
resets the attempt counter to 0. -/
theorem c2_five_failures_lock_and_reset
    (verify : String → String → Bool) (st0 st1 st2 st3 st4 st5 : ServerState)
    (socketId roomId badpw displayName : String)
    (t1 t2 t3 t4 t5 t6 : Nat) (room : InMemoryRoom)
    (hroom : st0.rooms roomId = some room)
    (hopen : room.status = RoomStatus.opened)
    (hbad : verify room.passwordHash badpw = false)
    (hrec : st0.rateLimits roomId = none)
    (h12 : t2 - t1 ≤ ATTEMPT_WINDOW_MS) (h23 : t3 - t2 ≤ ATTEMPT_WINDOW_MS)
    (h34 : t4 - t3 ≤ ATTEMPT_WINDOW_MS) (h45 : t5 - t4 ≤ ATTEMPT_WINDOW_MS)
    (h6 : t6 < t5 + LOCKOUT_DURATION_MS)
    (e1 : st1 = joinStep verify socketId roomId badpw displayName st0 t1)
    (e2 : st2 = joinStep verify socketId roomId badpw displayName st1 t2)
    (e3 : st3 = joinStep verify socketId roomId badpw displayName st2 t3)
    (e4 : st4 = joinStep verify socketId roomId badpw displayName st3 t4)
    (e5 : st5 = joinStep verify socketId roomId badpw displayName st4 t5) :
    (joinRoom verify st0 socketId roomId badpw displayName t1).result
        = JoinResult.invalidPassword 4 ∧
    (joinRoom verify st1 socketId roomId badpw displayName t2).result
        = JoinResult.invalidPassword 3 ∧
    (joinRoom verify st2 socketId roomId badpw displayName t3).result
        = JoinResult.invalidPassword 2 ∧
    (joinRoom verify st3 socketId roomId badpw displayName t4).result
        = JoinResult.invalidPassword 1 ∧
    (joinRoom verify st4 socketId roomId badpw displayName t5).result
        = JoinResult.lockedAfterFailure ∧
    st5.rateLimits roomId = some ⟨5, some (t5 + LOCKOUT_DURATION_MS), t5⟩ ∧
    (∀ pw, joinRoom verify st5 socketId roomId pw displayName t6 =
       { result := JoinResult.rateLimited (t5 + LOCKOUT_DURATION_MS - t6)
         state := st5, emits := [] }) ∧
    (∀ (st : ServerState) (sid rid pw nm : String) (now : Nat) (room' : InMemoryRoom)
       (s : RateLimitState),
       st.rooms rid = some room' → room'.status = RoomStatus.opened →
       (isRateLimited st.rateLimits rid now).1.limited = false →
       verify room'.passwordHash pw = true →
       (joinRoom verify st sid rid pw nm now).state.rateLimits rid = some s →
       s.attempts = 0) := by
  have j1 := joinRoom_badpw_fresh verify st0 socketId roomId badpw displayName t1 room
    hroom hopen hbad hrec
  have hroom1 : st1.rooms roomId = some room := by
    rw [e1, joinStep, j1]
    exact hroom
  have hrec1 : st1.rateLimits roomId = some ⟨1, none, t1⟩ := by
    rw [e1, joinStep, j1]
    exact setRecord_self _ _ _
  have j2 := joinRoom_badpw_step verify st1 socketId roomId badpw displayName t2 1 t1 room
    hroom1 hopen hbad hrec1 h12 (by decide)
  have hroom2 : st2.rooms roomId = some room := by
    rw [e2, joinStep, j2]
    exact hroom1
  have hrec2 : st2.rateLimits roomId = some ⟨2, none, t2⟩ := by
    rw [e2, joinStep, j2]
    exact setRecord_self _ _ _
  have j3 := joinRoom_badpw_step verify st2 socketId roomId badpw displayName t3 2 t2 room
    hroom2 hopen hbad hrec2 h23 (by decide)
  have hroom3 : st3.rooms roomId = some room := by
    rw [e3, joinStep, j3]
    exact hroom2
  have hrec3 : st3.rateLimits roomId = some ⟨3, none, t3⟩ := by
    rw [e3, joinStep, j3]
    exact setRecord_self _ _ _
  have j4 := joinRoom_badpw_step verify st3 socketId roomId badpw displayName t4 3 t3 room
    hroom3 hopen hbad hrec3 h34 (by decide)
  have hroom4 : st4.rooms roomId = some room := by
    rw [e4, joinStep, j4]
    exact hroom3
  have hrec4 : st4.rateLimits roomId = some ⟨4, none, t4⟩ := by
    rw [e4, joinStep, j4]
    exact setRecord_self _ _ _
  have j5 := joinRoom_badpw_lock verify st4 socketId roomId badpw displayName t5 4 t4 room
    hroom4 hopen hbad hrec4 h45 (by decide)
  have hrec5 : st5.rateLimits roomId = some ⟨5, some (t5 + LOCKOUT_DURATION_MS), t5⟩ := by
    rw [e5, joinStep, j5]
    exact setRecord_self _ _ _
  refine ⟨by rw [j1], by rw [j2]; rfl, by rw [j3]; rfl, by rw [j4]; rfl, by rw [j5], hrec5,
    ?_, ?_⟩
  · intro pw
    exact joinRoom_whileLocked verify st5 socketId roomId pw displayName t6
      (t5 + LOCKOUT_DURATION_MS) ⟨5, some (t5 + LOCKOUT_DURATION_MS), t5⟩ hrec5 rfl h6
  · intro st sid rid pw nm now room' s hroom' hopen' hlim' hgood' hs
    rw [joinRoom_goodpw_rateLimits verify st sid rid pw nm now room'
      hroom' hopen' hlim' hgood'] at hs
    exact resetAttempts_attempts _ rid s hs

/-- Witness for C2: the concrete scenario of room R2 with password Passw0rd!,
five wrong passwords at times 0 to 4, a sixth attempt with the correct
password at time 10 rejected by the lockout, and a successful join after one
failure resetting the counter to 0. -/
theorem c2_witness :
    (joinRoom eqVerify c2State "s" "R2" "nope" "P" 0).result
        = JoinResult.invalidPassword 4 ∧
    (joinRoom eqVerify c2S4 "s" "R2" "nope" "P" 4).result
        = JoinResult.lockedAfterFailure ∧
    c2S5.rateLimits "R2" = some ⟨5, some (4 + LOCKOUT_DURATION_MS), 4⟩ ∧
    joinRoom eqVerify c2S5 "s" "R2" "Passw0rd!" "P" 10 =
      { result := JoinResult.rateLimited (4 + LOCKOUT_DURATION_MS - 10)
        state := c2S5, emits := [] } ∧
    ((joinRoom eqVerify c2S1 "s" "R2" "Passw0rd!" "P" 1).state.rateLimits "R2"
        = some ⟨0, none, 0⟩ ∧
      (⟨0, none, 0⟩ : RateLimitState).attempts = 0) :=
  have h := c2_five_failures_lock_and_reset eqVerify c2State c2S1 c2S2 c2S3 c2S4 c2S5
    "s" "R2" "nope" "P" 0 1 2 3 4 10 c2Room rfl rfl (by decide) rfl
    (by decide) (by decide) (by decide) (by decide) (by decide)
    rfl rfl rfl rfl rfl
  ⟨h.1, h.2.2.2.2.1, h.2.2.2.2.2.1, h.2.2.2.2.2.2.1 "Passw0rd!",
   by decide,
   h.2.2.2.2.2.2.2 c2S1 "s" "R2" "Passw0rd!" "P" 1 c2Room ⟨0, none, 0⟩
     (by decide) rfl (by decide) (by decide) (by decide)⟩

/-- C10: five joins naming a nonexistent room id, each within the sliding
window of the previous one and starting from a clean guard record, are all
answered with the not-found error while each records a failed attempt; the
fifth locks the id for LOCKOUT_DURATION_MS, and while the deadline lies in
the future any further join for that id is rejected with the rate-limit
error, the state unchanged; the rooms map is never touched. -/
theorem c10_nonexistent_room_records_and_locks
    (verify : String → String → Bool) (st0 st1 st2 st3 st4 st5 : ServerState)
    (socketId roomId password displayName : String)
    (t1 t2 t3 t4 t5 t6 : Nat)
    (hroom : st0.rooms roomId = none)
    (hrec : st0.rateLimits roomId = none)
    (h12 : t2 - t1 ≤ ATTEMPT_WINDOW_MS) (h23 : t3 - t2 ≤ ATTEMPT_WINDOW_MS)
    (h34 : t4 - t3 ≤ ATTEMPT_WINDOW_MS) (h45 : t5 - t4 ≤ ATTEMPT_WINDOW_MS)
    (h6 : t6 < t5 + LOCKOUT_DURATION_MS)
    (e1 : st1 = joinStep verify socketId roomId password displayName st0 t1)
    (e2 : st2 = joinStep verify socketId roomId password displayName st1 t2)
    (e3 : st3 = joinStep verify socketId roomId password displayName st2 t3)
    (e4 : st4 = joinStep verify socketId roomId password displayName st3 t4)
    (e5 : st5 = joinStep verify socketId roomId password displayName st4 t5) :
    (joinRoom verify st0 socketId roomId password displayName t1).result
        = JoinResult.notFound ∧
    st1.rateLimits roomId = some ⟨1, none, t1⟩ ∧
    (joinRoom verify st1 socketId roomId password displayName t2).result
        = JoinResult.notFound ∧
    (joinRoom verify st2 socketId roomId password displayName t3).result
        = JoinResult.notFound ∧
    (joinRoom verify st3 socketId roomId password displayName t4).result
        = JoinResult.notFound ∧
    (joinRoom verify st4 socketId roomId password displayName t5).result
        = JoinResult.notFound ∧
    st5.rateLimits roomId = some ⟨5, some (t5 + LOCKOUT_DURATION_MS), t5⟩ ∧
    st5.rooms = st0.rooms ∧
    (∀ pw, joinRoom verify st5 socketId roomId pw displayName t6 =
       { result := JoinResult.rateLimited (t5 + LOCKOUT_DURATION_MS - t6)
         state := st5, emits := [] }) := by
  have j1 := joinRoom_notFound_fresh verify st0 socketId roomId password displayName t1
    hroom hrec
  have hroom1 : st1.rooms roomId = none := by
    rw [e1, joinStep, j1]
    exact hroom
  have hrooms1 : st1.rooms = st0.rooms := by
    rw [e1, joinStep, j1]
  have hrec1 : st1.rateLimits roomId = some ⟨1, none, t1⟩ := by
    rw [e1, joinStep, j1]
    exact setRecord_self _ _ _
  have j2 := joinRoom_notFound_step verify st1 socketId roomId password displayName t2 1 t1
    hroom1 hrec1 h12 (by decide)
  have hroom2 : st2.rooms roomId = none := by
    rw [e2, joinStep, j2]
    exact hroom1
  have hrooms2 : st2.rooms = st1.rooms := by
    rw [e2, joinStep, j2]
  have hrec2 : st2.rateLimits roomId = some ⟨2, none, t2⟩ := by
    rw [e2, joinStep, j2]
    exact setRecord_self _ _ _
  have j3 := joinRoom_notFound_step verify st2 socketId roomId password displayName t3 2 t2
    hroom2 hrec2 h23 (by decide)
  have hroom3 : st3.rooms roomId = none := by
    rw [e3, joinStep, j3]
    exact hroom2
  have hrooms3 : st3.rooms = st2.rooms := by
    rw [e3, joinStep, j3]
  have hrec3 : st3.rateLimits roomId = some ⟨3, none, t3⟩ := by
    rw [e3, joinStep, j3]
    exact setRecord_self _ _ _
  have j4 := joinRoom_notFound_step verify st3 socketId roomId password displayName t4 3 t3
    hroom3 hrec3 h34 (by decide)
  have hroom4 : st4.rooms roomId = none := by
    rw [e4, joinStep, j4]
    exact hroom3
  have hrooms4 : st4.rooms = st3.rooms := by
    rw [e4, joinStep, j4]
  have hrec4 : st4.rateLimits roomId = some ⟨4, none, t4⟩ := by
    rw [e4, joinStep, j4]
    exact setRecord_self _ _ _
  have j5 := joinRoom_notFound_lock verify st4 socketId roomId password displayName t5 4 t4
    hroom4 hrec4 h45 (by decide)
  have hrooms5 : st5.rooms = st4.rooms := by
    rw [e5, joinStep, j5]
  have hrec5 : st5.rateLimits roomId = some ⟨5, some (t5 + LOCKOUT_DURATION_MS), t5⟩ := by
    rw [e5, joinStep, j5]
    exact setRecord_self _ _ _
  refine ⟨by rw [j1], hrec1, by rw [j2], by rw [j3], by rw [j4], by rw [j5], hrec5, ?_, ?_⟩
  · rw [hrooms5, hrooms4, hrooms3, hrooms2, hrooms1]
  · intro pw
    exact joinRoom_whileLocked verify st5 socketId roomId pw displayName t6
      (t5 + LOCKOUT_DURATION_MS) ⟨5, some (t5 + LOCKOUT_DURATION_MS), t5⟩ hrec5 rfl h6

/-- Witness for C10: five joins to the nonexistent id NoRoom at times 0 to 4
lock the id, and a sixth join at time 10 is rejected by the lockout. -/
theorem c10_witness :
    (joinRoom eqVerify cXState "s" "NoRoom" "pw" "P" 0).result = JoinResult.notFound ∧
    c10S1.rateLimits "NoRoom" = some ⟨1, none, 0⟩ ∧
    (joinRoom eqVerify c10S4 "s" "NoRoom" "pw" "P" 4).result = JoinResult.notFound ∧
    c10S5.rateLimits "NoRoom" = some ⟨5, some (4 + LOCKOUT_DURATION_MS), 4⟩ ∧
    c10S5.rooms = cXState.rooms ∧
    joinRoom eqVerify c10S5 "s" "NoRoom" "correct-password" "P" 10 =
      { result := JoinResult.rateLimited (4 + LOCKOUT_DURATION_MS - 10)
        state := c10S5, emits := [] } :=
  have h := c10_nonexistent_room_records_and_locks eqVerify cXState c10S1 c10S2 c10S3 c10S4
    c10S5 "s" "NoRoom" "pw" "P" 0 1 2 3 4 10 rfl rfl
    (by decide) (by decide) (by decide) (by decide) (by decide)
    rfl rfl rfl rfl rfl
  ⟨h.1, h.2.1, h.2.2.2.2.1, h.2.2.2.2.2.2.1, h.2.2.2.2.2.2.2.1,
   h.2.2.2.2.2.2.2.2 "correct-password"⟩

end Playdate
